import Mathlib

/-!
Shallow embedding of `src/communication/src/protocol/handshake_worker.rs`
(the `HandshakeWorker` two-round handshake) from the massa repository.

The worker's external capabilities — the OS-entropy RNG, the crypto engine
(`Hash::hash`, `SignatureEngine::sign`, `SignatureEngine::verify`) and the
framed transport binders raced under `tokio::time::timeout` — live outside
`src/`; they are modelled as an `Env` oracle: the bytes the RNG produced,
the hash/sign/verify functions, and the outcome of each round's
`timeout(d, try_join(send, recv))`.  `run` is then a pure function of the
worker and the oracle, and additionally records a trace of the observable
actions it takes (messages handed to the writer, deadlines handed to
`timeout`, calls into `sign` and `verify`), in program order.
-/

/-- A public key, opaque in the source (crypto crate). -/
structure PublicKey where
  key : Nat
deriving DecidableEq, Repr

/-- A private key, opaque in the source (crypto crate). -/
structure PrivateKey where
  key : Nat
deriving DecidableEq, Repr

/-- A signature, opaque in the source (crypto crate). -/
structure Signature where
  sig : Nat
deriving DecidableEq, Repr

/-- A hash value, opaque in the source (crypto crate). -/
structure CryptoHash where
  val : Nat
deriving DecidableEq, Repr

/-- The `NodeId(pub PublicKey)` tuple struct wrapping a public key; equality is
equality of the wrapped key. -/
structure NodeId where
  pk : PublicKey
deriving DecidableEq, Repr

/-- The `Message` enum (defined outside `src/` in `messages.rs`).  Only the two
handshake variants are matched by name in `handshake_worker.rs`; every other
variant of the enum falls into the wildcard arm and is represented here by
`OtherVariant`. -/
inductive Message where
  | HandshakeInitiation (public_key : PublicKey) (random_bytes : List Nat)
  | HandshakeReply (signature : Signature)
  | OtherVariant (tag : Nat)
deriving DecidableEq, Repr

/-- The `HandshakeErrorType` variants used by `handshake_worker.rs`. -/
inductive HandshakeErrorType where
  | HandshakeTimeoutError
  | HandshakeInterruptionError
  | HandshakeWrongMessageError
  | HandshakeKeyError
  | HandshakeInvalidSignatureError
deriving DecidableEq, Repr

/-- The `CommunicationError` type: the handshake-classified errors plus the lower-level
transport / encoding / crypto errors that `?` and `Ok(Err(e))` propagate
(collapsed to a numeric code — their structure is outside `src/`). -/
inductive CommunicationError where
  | HandshakeError (e : HandshakeErrorType)
  | LowLevelError (code : Nat)
deriving DecidableEq, Repr

/-- State of `ReadBinder::new(socket_reader)`: the framed read half wrapping the raw
socket reader (binder internals are outside `src/`). -/
structure ReadBinder (R : Type) where
  socket_reader : R
deriving DecidableEq, Repr

/-- State of `WriteBinder::new(socket_writer)`: the framed write half wrapping the raw
socket writer (binder internals are outside `src/`). -/
structure WriteBinder (W : Type) where
  socket_writer : W
deriving DecidableEq, Repr

/-- Outcome of one round's `timeout(d, try_join(send_fut, recv_fut)).await`,
exactly the four patterns `run` matches on:
`Err(_)` (deadline elapsed), `Ok(Err(e))` (either operation failed),
`Ok(Ok((_, None)))` (stream ended with no message), and
`Ok(Ok((_, Some((_, msg)))))` (both completed, a message was received). -/
inductive RoundOutcome where
  | Timeout
  | JoinError (e : CommunicationError)
  | StreamEnd
  | Received (msg : Message)
deriving DecidableEq, Repr

/-- Oracle for the worker's external capabilities during one `run`:
`self_random_bytes` is what `StdRng::from_entropy().fill_bytes` wrote into the
32-byte array; `hash`, `sign`, `verify` are the crypto capabilities
(`sign` and `verify` are fallible in the source and so return `Except`);
`round1` and `round2` are the outcomes of the two timed joined exchanges. -/
structure Env where
  self_random_bytes : List Nat
  hash : List Nat → CryptoHash
  sign : CryptoHash → PrivateKey → Except CommunicationError Signature
  verify : CryptoHash → Signature → PublicKey → Except CommunicationError Bool
  round1 : RoundOutcome
  round2 : RoundOutcome

/-- Observable actions of one `run`, in program order: a message handed to
`writer.send`, a deadline (millis) handed to `tokio::time::timeout`, a call
into `SignatureEngine::sign`, a call into `SignatureEngine::verify`. -/
inductive Event where
  | SendInit (m : Message)
  | TimeoutSet (millis : Nat)
  | SignCall (h : CryptoHash) (k : PrivateKey)
  | SendReply (m : Message)
  | VerifyCall (h : CryptoHash) (s : Signature) (pk : PublicKey)
deriving DecidableEq, Repr

/-- The `HandshakeWorker` struct: the two binders it owns, its node id, its
private key, and the per-round timeout (`UTime` modelled as millis). -/
structure HandshakeWorker (R W : Type) where
  reader : ReadBinder R
  writer : WriteBinder W
  self_node_id : NodeId
  private_key : PrivateKey
  timeout_duration : Nat

/-- Constructor `HandshakeWorker::new`: wraps the raw socket halves in binders and stores
the identity, key and timeout. -/
def HandshakeWorker.new (socket_reader : R) (socket_writer : W)
    (self_node_id : NodeId) (private_key : PrivateKey) (timeout_duration : Nat) :
    HandshakeWorker R W :=
  { reader := ⟨socket_reader⟩
    writer := ⟨socket_writer⟩
    self_node_id := self_node_id
    private_key := private_key
    timeout_duration := timeout_duration }

/-- Alias `HandshakeReturnType`: `Result<(NodeId, ReadBinder, WriteBinder), CommunicationError>`. -/
abbrev HandshakeReturnType (R W : Type) :=
  Except CommunicationError (NodeId × ReadBinder R × WriteBinder W)

/-- Result of a run together with its trace of observable actions. -/
abbrev RunOut (R W : Type) := HandshakeReturnType R W × List Event

/-- Final stage of `run`: the round-2 signature check.
`if !signature_engine.verify(&self_random_hash, &other_signature, &other_node_id.0)? { ... }`
followed by `Ok((other_node_id, self.reader, self.writer))`. -/
def HandshakeWorker.checkSig (w : HandshakeWorker R W) (env : Env)
    (other_node_id : NodeId) (other_signature : Signature) (tr : List Event) :
    RunOut R W :=
  let self_random_hash := env.hash env.self_random_bytes
  (match env.verify self_random_hash other_signature other_node_id.pk with
   | .error e => .error e
   | .ok b =>
     if !b then
       .error (.HandshakeError .HandshakeInvalidSignatureError)
     else
       .ok (other_node_id, w.reader, w.writer),
   tr ++ [Event.VerifyCall self_random_hash other_signature other_node_id.pk])

/-- Round 2 of `run`: send `HandshakeReply { signature: self_signature }` and
receive the next message, joined under `timeout(self.timeout_duration, ..)`,
with the same four-way match on the outcome as round 1; a received message
must be a `HandshakeReply`. -/
def HandshakeWorker.roundTwo (w : HandshakeWorker R W) (env : Env)
    (other_node_id : NodeId) (self_signature : Signature) (tr1 : List Event) :
    RunOut R W :=
  let send_reply_msg := Message.HandshakeReply self_signature
  let tr2 := tr1 ++ [Event.SendReply send_reply_msg, Event.TimeoutSet w.timeout_duration]
  match env.round2 with
  | .Timeout => (.error (.HandshakeError .HandshakeTimeoutError), tr2)
  | .JoinError e => (.error e, tr2)
  | .StreamEnd => (.error (.HandshakeError .HandshakeInterruptionError), tr2)
  | .Received msg =>
    match msg with
    | .HandshakeReply sig => w.checkSig env other_node_id sig tr2
    | _ => (.error (.HandshakeError .HandshakeWrongMessageError), tr2)

/-- Middle stage of `run`, after round 1 produced `(other_node_id,
other_random_bytes)`: the self-connection check, then
`self_signature = signature_engine.sign(&Hash::hash(&other_random_bytes), &self.private_key)?`,
then round 2. -/
def HandshakeWorker.afterRoundOne (w : HandshakeWorker R W) (env : Env)
    (other_node_id : NodeId) (other_random_bytes : List Nat) (tr0 : List Event) :
    RunOut R W :=
  if other_node_id = w.self_node_id then
    (.error (.HandshakeError .HandshakeKeyError), tr0)
  else
    let other_random_hash := env.hash other_random_bytes
    let tr1 := tr0 ++ [Event.SignCall other_random_hash w.private_key]
    match env.sign other_random_hash w.private_key with
    | .error e => (.error e, tr1)
    | .ok self_signature => w.roundTwo env other_node_id self_signature tr1

/-- Body of `HandshakeWorker::run`: generate randomness and its hash, send
`HandshakeInitiation { public_key: self.self_node_id.0, random_bytes }` while
receiving the peer's first message under one timeout (round 1); a received
message must be a `HandshakeInitiation`, yielding
`(other_node_id, other_random_bytes)`; then the identity check, signing,
round 2 and the signature check. -/
def HandshakeWorker.run (w : HandshakeWorker R W) (env : Env) : RunOut R W :=
  let self_random_bytes := env.self_random_bytes
  let send_init_msg := Message.HandshakeInitiation w.self_node_id.pk self_random_bytes
  let tr0 := [Event.SendInit send_init_msg, Event.TimeoutSet w.timeout_duration]
  match env.round1 with
  | .Timeout => (.error (.HandshakeError .HandshakeTimeoutError), tr0)
  | .JoinError e => (.error e, tr0)
  | .StreamEnd => (.error (.HandshakeError .HandshakeInterruptionError), tr0)
  | .Received msg =>
    match msg with
    | .HandshakeInitiation pk rb => w.afterRoundOne env ⟨pk⟩ rb tr0
    | _ => (.error (.HandshakeError .HandshakeWrongMessageError), tr0)

/-- Every event a run can emit: the initiation send and the timeout deadline
are fixed by the worker and the generated randomness; a sign call, a reply
send or a verify call exists only on the path where round 1 delivered a
`HandshakeInitiation` from a different identity, and their payloads are fixed
by that round-1 message. -/
theorem run_trace_events (w : HandshakeWorker R W) (env : Env) :
    ∀ ev ∈ (w.run env).2,
      ev = Event.SendInit (Message.HandshakeInitiation w.self_node_id.pk env.self_random_bytes)
      ∨ ev = Event.TimeoutSet w.timeout_duration
      ∨ (∃ pk rb, env.round1 = RoundOutcome.Received (Message.HandshakeInitiation pk rb)
          ∧ (⟨pk⟩ : NodeId) ≠ w.self_node_id
          ∧ (ev = Event.SignCall (env.hash rb) w.private_key
             ∨ (∃ s, env.sign (env.hash rb) w.private_key = Except.ok s
                 ∧ ev = Event.SendReply (Message.HandshakeReply s))
             ∨ (∃ sig, env.round2 = RoundOutcome.Received (Message.HandshakeReply sig)
                 ∧ ev = Event.VerifyCall (env.hash env.self_random_bytes) sig pk))) := by
  intro ev hev
  rcases h1 : env.round1 with _ | e1 | _ | msg1 <;>
    simp only [HandshakeWorker.run, h1] at hev
  · simp at hev
    rcases hev with h | h <;> subst h
    · exact Or.inl rfl
    · exact Or.inr (Or.inl rfl)
  · simp at hev
    rcases hev with h | h <;> subst h
    · exact Or.inl rfl
    · exact Or.inr (Or.inl rfl)
  · simp at hev
    rcases hev with h | h <;> subst h
    · exact Or.inl rfl
    · exact Or.inr (Or.inl rfl)
  · rcases msg1 with ⟨pk, rb⟩ | sig1 | t1
    · by_cases hid : (⟨pk⟩ : NodeId) = w.self_node_id
      · simp [HandshakeWorker.afterRoundOne, hid] at hev
        rcases hev with h | h <;> subst h
        · exact Or.inl rfl
        · exact Or.inr (Or.inl rfl)
      · simp only [HandshakeWorker.afterRoundOne, if_neg hid] at hev
        rcases hs : env.sign (env.hash rb) w.private_key with e | s <;>
          simp only [hs] at hev
        · simp at hev
          rcases hev with h | h | h <;> subst h
          · exact Or.inl rfl
          · exact Or.inr (Or.inl rfl)
          · exact Or.inr (Or.inr ⟨pk, rb, rfl, hid, Or.inl rfl⟩)
        · rcases h2 : env.round2 with _ | e2 | _ | msg2 <;>
            simp only [HandshakeWorker.roundTwo, h2] at hev
          · simp at hev
            rcases hev with h | h | h | h | h <;> subst h
            · exact Or.inl rfl
            · exact Or.inr (Or.inl rfl)
            · exact Or.inr (Or.inr ⟨pk, rb, rfl, hid, Or.inl rfl⟩)
            · exact Or.inr (Or.inr ⟨pk, rb, rfl, hid, Or.inr (Or.inl ⟨s, hs, rfl⟩)⟩)
            · exact Or.inr (Or.inl rfl)
          · simp at hev
            rcases hev with h | h | h | h | h <;> subst h
            · exact Or.inl rfl
            · exact Or.inr (Or.inl rfl)
            · exact Or.inr (Or.inr ⟨pk, rb, rfl, hid, Or.inl rfl⟩)
            · exact Or.inr (Or.inr ⟨pk, rb, rfl, hid, Or.inr (Or.inl ⟨s, hs, rfl⟩)⟩)
            · exact Or.inr (Or.inl rfl)
          · simp at hev
            rcases hev with h | h | h | h | h <;> subst h
            · exact Or.inl rfl
            · exact Or.inr (Or.inl rfl)
            · exact Or.inr (Or.inr ⟨pk, rb, rfl, hid, Or.inl rfl⟩)
            · exact Or.inr (Or.inr ⟨pk, rb, rfl, hid, Or.inr (Or.inl ⟨s, hs, rfl⟩)⟩)
            · exact Or.inr (Or.inl rfl)
          · rcases msg2 with ⟨pk2, rb2⟩ | sig2 | t2
            · simp at hev
              rcases hev with h | h | h | h | h <;> subst h
              · exact Or.inl rfl
              · exact Or.inr (Or.inl rfl)
              · exact Or.inr (Or.inr ⟨pk, rb, rfl, hid, Or.inl rfl⟩)
              · exact Or.inr (Or.inr ⟨pk, rb, rfl, hid, Or.inr (Or.inl ⟨s, hs, rfl⟩)⟩)
              · exact Or.inr (Or.inl rfl)
            · simp only [HandshakeWorker.checkSig] at hev
              simp at hev
              rcases hev with h | h | h | h | h | h <;> subst h
              · exact Or.inl rfl
              · exact Or.inr (Or.inl rfl)
              · exact Or.inr (Or.inr ⟨pk, rb, rfl, hid, Or.inl rfl⟩)
              · exact Or.inr (Or.inr ⟨pk, rb, rfl, hid, Or.inr (Or.inl ⟨s, hs, rfl⟩)⟩)
              · exact Or.inr (Or.inl rfl)
              · exact Or.inr (Or.inr ⟨pk, rb, rfl, hid,
                  Or.inr (Or.inr ⟨sig2, rfl, rfl⟩)⟩)
            · simp at hev
              rcases hev with h | h | h | h | h <;> subst h
              · exact Or.inl rfl
              · exact Or.inr (Or.inl rfl)
              · exact Or.inr (Or.inr ⟨pk, rb, rfl, hid, Or.inl rfl⟩)
              · exact Or.inr (Or.inr ⟨pk, rb, rfl, hid, Or.inr (Or.inl ⟨s, hs, rfl⟩)⟩)
              · exact Or.inr (Or.inl rfl)
    · simp at hev
      rcases hev with h | h <;> subst h
      · exact Or.inl rfl
      · exact Or.inr (Or.inl rfl)
    · simp at hev
      rcases hev with h | h <;> subst h
      · exact Or.inl rfl
      · exact Or.inr (Or.inl rfl)

/-- A run returns `Ok` only via the end of the signature check: the returned
binders are the worker's own fields, the returned id is the one claimed in the
round-1 `HandshakeInitiation`, that id differs from the worker's own, round 2
delivered a `HandshakeReply`, and `verify` accepted it. -/
theorem run_ok_characterization (w : HandshakeWorker R W) (env : Env)
    (nid : NodeId) (rd : ReadBinder R) (wr : WriteBinder W)
    (hok : (w.run env).1 = Except.ok (nid, rd, wr)) :
    rd = w.reader ∧ wr = w.writer
    ∧ ∃ pk rb sig, env.round1 = RoundOutcome.Received (Message.HandshakeInitiation pk rb)
        ∧ nid = ⟨pk⟩ ∧ (⟨pk⟩ : NodeId) ≠ w.self_node_id
        ∧ env.round2 = RoundOutcome.Received (Message.HandshakeReply sig)
        ∧ env.verify (env.hash env.self_random_bytes) sig pk = Except.ok true := by
  rcases h1 : env.round1 with _ | e1 | _ | msg1 <;>
    simp only [HandshakeWorker.run, h1] at hok
  · simp at hok
  · simp at hok
  · simp at hok
  · rcases msg1 with ⟨pk, rb⟩ | sig1 | t1
    · by_cases hid : (⟨pk⟩ : NodeId) = w.self_node_id
      · simp [HandshakeWorker.afterRoundOne, hid] at hok
      · simp only [HandshakeWorker.afterRoundOne, if_neg hid] at hok
        rcases hs : env.sign (env.hash rb) w.private_key with e | s <;>
          simp only [hs] at hok
        · simp at hok
        · rcases h2 : env.round2 with _ | e2 | _ | msg2 <;>
            simp only [HandshakeWorker.roundTwo, h2] at hok
          · simp at hok
          · simp at hok
          · simp at hok
          · rcases msg2 with ⟨pk2, rb2⟩ | sig2 | t2
            · simp at hok
            · simp only [HandshakeWorker.checkSig] at hok
              rcases hv : env.verify (env.hash env.self_random_bytes) sig2 pk with e | b <;>
                simp only [hv] at hok
              · simp at hok
              · cases b
                · simp at hok
                · simp at hok
                  exact ⟨hok.2.1.symm, hok.2.2.symm, pk, rb, sig2, rfl,
                    hok.1.symm, hid, rfl, hv⟩
            · simp at hok
    · simp at hok
    · simp at hok

/-- Every run's trace starts with the `HandshakeInitiation` send carrying the
worker's own public key and the generated random bytes. -/
theorem run_trace_head (w : HandshakeWorker R W) (env : Env) :
    ((w.run env).2).head? =
      some (Event.SendInit (Message.HandshakeInitiation w.self_node_id.pk env.self_random_bytes)) := by
  rcases h1 : env.round1 with _ | e1 | _ | msg1 <;>
    simp [HandshakeWorker.run, h1]
  rcases msg1 with ⟨pk, rb⟩ | sig1 | t1 <;>
    simp [HandshakeWorker.afterRoundOne]
  by_cases hid : (⟨pk⟩ : NodeId) = w.self_node_id <;> simp [hid]
  rcases hs : env.sign (env.hash rb) w.private_key with e | s <;> simp [hs]
  rcases h2 : env.round2 with _ | e2 | _ | msg2 <;> simp [HandshakeWorker.roundTwo, h2]
  rcases msg2 with ⟨pk2, rb2⟩ | sig2 | t2 <;> simp [HandshakeWorker.checkSig]

/-- Concrete public key used by witness runs. -/
def pkA : PublicKey := ⟨1⟩

/-- A second, distinct concrete public key. -/
def pkB : PublicKey := ⟨2⟩

/-- Thirty-two concrete bytes standing for this node's generated randomness. -/
def bytesA : List Nat := List.replicate 32 5

/-- Thirty-two concrete bytes standing for the peer's randomness. -/
def bytesB : List Nat := List.replicate 32 9

/-- A concrete executable stand-in for the opaque hash capability. -/
def sumHash (bs : List Nat) : CryptoHash := ⟨bs.foldl (fun a b => a * 31 + b + 1) 7⟩

/-- A concrete always-succeeding stand-in for the sign capability. -/
def okSign : CryptoHash → PrivateKey → Except CommunicationError Signature :=
  fun h k => .ok ⟨h.val + 1000 * k.key⟩

/-- A concrete always-accepting stand-in for the verify capability. -/
def okVerify : CryptoHash → Signature → PublicKey → Except CommunicationError Bool :=
  fun _ _ _ => .ok true

/-- A concrete worker: identity `pkA`, raw socket halves `10` and `20`. -/
def workerA : HandshakeWorker Nat Nat := HandshakeWorker.new 10 20 ⟨pkA⟩ ⟨3⟩ 5000

/-- An environment in which both rounds deliver well-formed messages from a
peer with identity `pkB`, and all crypto succeeds. -/
def envGood : Env :=
  { self_random_bytes := bytesA, hash := sumHash, sign := okSign, verify := okVerify,
    round1 := RoundOutcome.Received (Message.HandshakeInitiation pkB bytesB),
    round2 := RoundOutcome.Received (Message.HandshakeReply ⟨777⟩) }

/-- C1: on a run whose round 1 delivered a `HandshakeInitiation` from a
distinct identity, whose signing succeeded, and whose round 2 delivered a
`HandshakeReply`, the run returns Ok only if `verify(self_random_hash,
other_signature, claimed key)` returned `Ok(true)`; `Ok(false)` yields
`HandshakeInvalidSignatureError`, and a crypto-layer error is propagated to
the caller unchanged. -/
theorem round2_signature_check_fails_closed
    (w : HandshakeWorker R W) (env : Env) (pk : PublicKey) (rb : List Nat)
    (sig : Signature) (s : Signature)
    (h1 : env.round1 = RoundOutcome.Received (Message.HandshakeInitiation pk rb))
    (hid : (⟨pk⟩ : NodeId) ≠ w.self_node_id)
    (hsig : env.sign (env.hash rb) w.private_key = Except.ok s)
    (h2 : env.round2 = RoundOutcome.Received (Message.HandshakeReply sig)) :
    ((w.run env).1.isOk = true →
      env.verify (env.hash env.self_random_bytes) sig pk = Except.ok true)
    ∧ (env.verify (env.hash env.self_random_bytes) sig pk = Except.ok false →
      (w.run env).1 = Except.error (.HandshakeError .HandshakeInvalidSignatureError))
    ∧ (∀ e, env.verify (env.hash env.self_random_bytes) sig pk = Except.error e →
      (w.run env).1 = Except.error e) := by
  simp only [HandshakeWorker.run, h1, HandshakeWorker.afterRoundOne, if_neg hid, hsig,
    HandshakeWorker.roundTwo, h2, HandshakeWorker.checkSig]
  rcases hv : env.verify (env.hash env.self_random_bytes) sig pk with e | b
  · simp [hv, Except.isOk, Except.toBool]
  · cases b <;> simp [hv, Except.isOk, Except.toBool]

/-- Witness for C1: the theorem applied to the concrete success environment. -/
theorem round2_signature_check_fails_closed_witness :
    ((workerA.run envGood).1.isOk = true →
      envGood.verify (envGood.hash envGood.self_random_bytes) ⟨777⟩ pkB = Except.ok true)
    ∧ (envGood.verify (envGood.hash envGood.self_random_bytes) ⟨777⟩ pkB = Except.ok false →
      (workerA.run envGood).1 = Except.error (.HandshakeError .HandshakeInvalidSignatureError))
    ∧ (∀ e, envGood.verify (envGood.hash envGood.self_random_bytes) ⟨777⟩ pkB = Except.error e →
      (workerA.run envGood).1 = Except.error e) :=
  round2_signature_check_fails_closed workerA envGood pkB bytesB ⟨777⟩
    ⟨(sumHash bytesB).val + 1000 * 3⟩ rfl (by decide) rfl rfl

/-- C2 (amended): on a run whose round 1 delivered a `HandshakeInitiation`
from a distinct identity, every sign call signs `Hash(other_random_bytes)` —
the hash of the randomness received from the peer — with this node's own
private key, and the round-2 `HandshakeReply` carries exactly the resulting
signature; whenever `Hash(other_random_bytes)` differs from the hash of this
node's own randomness, no signature is produced over this node's own random
hash. -/
theorem reply_signs_hash_of_peer_random_bytes
    (w : HandshakeWorker R W) (env : Env) (pk : PublicKey) (rb : List Nat)
    (h1 : env.round1 = RoundOutcome.Received (Message.HandshakeInitiation pk rb))
    (hid : (⟨pk⟩ : NodeId) ≠ w.self_node_id) :
    (∀ h k, Event.SignCall h k ∈ (w.run env).2 → h = env.hash rb ∧ k = w.private_key)
    ∧ (∀ s, env.sign (env.hash rb) w.private_key = Except.ok s →
        Event.SendReply (Message.HandshakeReply s) ∈ (w.run env).2)
    ∧ (env.hash rb ≠ env.hash env.self_random_bytes →
        ∀ h k, Event.SignCall h k ∈ (w.run env).2 → h ≠ env.hash env.self_random_bytes) := by
  have hsign : ∀ h k, Event.SignCall h k ∈ (w.run env).2 →
      h = env.hash rb ∧ k = w.private_key := by
    intro h k hmem
    rcases run_trace_events w env _ hmem with hc | hc | ⟨pk', rb', hr1, _, hc⟩
    · exact absurd hc (by simp)
    · exact absurd hc (by simp)
    · rw [h1] at hr1
      injection hr1 with hr1
      injection hr1 with hpk hrb
      rcases hc with hc | ⟨s, _, hc⟩ | ⟨sg, _, hc⟩
      · rw [← hrb] at hc
        injection hc with hh hk
        exact ⟨hh, hk⟩
      · exact absurd hc (by simp)
      · exact absurd hc (by simp)
  refine ⟨hsign, ?_, ?_⟩
  · intro s hs
    simp only [HandshakeWorker.run, h1, HandshakeWorker.afterRoundOne, if_neg hid, hs,
      HandshakeWorker.roundTwo]
    rcases h2 : env.round2 with _ | e2 | _ | msg2 <;> simp
    rcases msg2 with ⟨pk2, rb2⟩ | sig2 | t2 <;> simp [HandshakeWorker.checkSig]
  · intro hne h k hmem
    rw [(hsign h k hmem).1]
    exact hne

/-- Environment in which the peer echoes this node's own random bytes back in
its round-1 `HandshakeInitiation`. -/
def envEcho : Env :=
  { envGood with round1 := RoundOutcome.Received (Message.HandshakeInitiation pkB bytesA) }

/-- C2 counterexample: on the echo environment the run succeeds (round 1
delivered a valid initiation from a distinct identity), yet the sign call is
made on the hash of this node's own random bytes — the signature is produced
over this node's own random hash, refuting the claim's "never". -/
theorem reply_signed_over_own_hash_on_echo :
    Event.SignCall (envEcho.hash envEcho.self_random_bytes) workerA.private_key
      ∈ (workerA.run envEcho).2
    ∧ (workerA.run envEcho).1.isOk = true := by
  constructor
  · decide
  · rfl

/-- Witness for the amended C2 at the concrete success environment. -/
theorem reply_signs_hash_of_peer_random_bytes_witness :
    (∀ h k, Event.SignCall h k ∈ (workerA.run envGood).2 →
      h = envGood.hash bytesB ∧ k = workerA.private_key)
    ∧ (∀ s, envGood.sign (envGood.hash bytesB) workerA.private_key = Except.ok s →
        Event.SendReply (Message.HandshakeReply s) ∈ (workerA.run envGood).2)
    ∧ (envGood.hash bytesB ≠ envGood.hash envGood.self_random_bytes →
        ∀ h k, Event.SignCall h k ∈ (workerA.run envGood).2 →
          h ≠ envGood.hash envGood.self_random_bytes) :=
  reply_signs_hash_of_peer_random_bytes workerA envGood pkB bytesB rfl (by decide)

/-- Environment in which the peer claims this node's own identity in round 1. -/
def envSelfId : Env :=
  { envGood with round1 := RoundOutcome.Received (Message.HandshakeInitiation pkA bytesB) }

/-- C3: when round 1 delivers a `HandshakeInitiation` whose public key equals
this node's own identity, the run fails with `HandshakeKeyError`, and neither
a sign call nor a verify call appears in the trace. -/
theorem self_connection_rejected_before_crypto
    (w : HandshakeWorker R W) (env : Env) (pk : PublicKey) (rb : List Nat)
    (h1 : env.round1 = RoundOutcome.Received (Message.HandshakeInitiation pk rb))
    (hid : (⟨pk⟩ : NodeId) = w.self_node_id) :
    (w.run env).1 = Except.error (.HandshakeError .HandshakeKeyError)
    ∧ (∀ h k, Event.SignCall h k ∉ (w.run env).2)
    ∧ (∀ h s p, Event.VerifyCall h s p ∉ (w.run env).2) := by
  simp [HandshakeWorker.run, h1, HandshakeWorker.afterRoundOne, hid]

/-- Witness for C3: this node dials itself. -/
theorem self_connection_rejected_before_crypto_witness :
    (workerA.run envSelfId).1 = Except.error (.HandshakeError .HandshakeKeyError)
    ∧ (∀ h k, Event.SignCall h k ∉ (workerA.run envSelfId).2)
    ∧ (∀ h s p, Event.VerifyCall h s p ∉ (workerA.run envSelfId).2) :=
  self_connection_rejected_before_crypto workerA envSelfId pkA bytesB rfl rfl

/-- C4: a worker constructed by `new` that returns Ok returns exactly the
binders created around the socket halves it was constructed with, and the
`NodeId` built from the public key received in the round-1
`HandshakeInitiation`. -/
theorem success_returns_claimed_id_and_owned_binders
    (socket_reader : R) (socket_writer : W) (self_node_id : NodeId)
    (private_key : PrivateKey) (timeout_duration : Nat) (env : Env)
    (nid : NodeId) (rd : ReadBinder R) (wr : WriteBinder W)
    (hok : ((HandshakeWorker.new socket_reader socket_writer self_node_id
        private_key timeout_duration).run env).1 = Except.ok (nid, rd, wr)) :
    rd = ⟨socket_reader⟩ ∧ wr = ⟨socket_writer⟩
    ∧ ∃ pk rb, env.round1 = RoundOutcome.Received (Message.HandshakeInitiation pk rb)
        ∧ nid = ⟨pk⟩ := by
  obtain ⟨hrd, hwr, pk, rb, sig, hr1, hnid, _, _, _⟩ :=
    run_ok_characterization _ env nid rd wr hok
  exact ⟨hrd, hwr, pk, rb, hr1, hnid⟩

/-- Witness for C4 at the concrete success environment. -/
theorem success_returns_claimed_id_and_owned_binders_witness :
    (⟨10⟩ : ReadBinder Nat) = ⟨10⟩ ∧ (⟨20⟩ : WriteBinder Nat) = ⟨20⟩
    ∧ ∃ pk rb, envGood.round1 = RoundOutcome.Received (Message.HandshakeInitiation pk rb)
        ∧ (⟨pkB⟩ : NodeId) = ⟨pk⟩ :=
  success_returns_claimed_id_and_owned_binders 10 20 ⟨pkA⟩ ⟨3⟩ 5000 envGood
    ⟨pkB⟩ ⟨10⟩ ⟨20⟩ rfl

/-- Environment whose first received message is a `HandshakeReply`. -/
def envWrongFirst : Env :=
  { envGood with round1 := RoundOutcome.Received (Message.HandshakeReply ⟨5⟩) }

/-- Environment whose second received message is not a `HandshakeReply`. -/
def envWrongSecond : Env :=
  { envGood with round2 := RoundOutcome.Received (Message.OtherVariant 3) }

/-- C5: a round-1 message other than `HandshakeInitiation` fails the run with
`HandshakeWrongMessageError` without any sign or verify call; a round-2
message other than `HandshakeReply` fails the run with the same error. -/
theorem wrong_message_variant_fails
    (w : HandshakeWorker R W) (env : Env) :
    (∀ msg, env.round1 = RoundOutcome.Received msg →
      (∀ pk rb, msg ≠ Message.HandshakeInitiation pk rb) →
      (w.run env).1 = Except.error (.HandshakeError .HandshakeWrongMessageError)
      ∧ (∀ h k, Event.SignCall h k ∉ (w.run env).2)
      ∧ (∀ h s p, Event.VerifyCall h s p ∉ (w.run env).2))
    ∧ (∀ pk rb s msg2,
      env.round1 = RoundOutcome.Received (Message.HandshakeInitiation pk rb) →
      (⟨pk⟩ : NodeId) ≠ w.self_node_id →
      env.sign (env.hash rb) w.private_key = Except.ok s →
      env.round2 = RoundOutcome.Received msg2 →
      (∀ sig, msg2 ≠ Message.HandshakeReply sig) →
      (w.run env).1 = Except.error (.HandshakeError .HandshakeWrongMessageError)) := by
  constructor
  · intro msg h1 hnot
    rcases msg with ⟨pk, rb⟩ | sig1 | t1
    · exact absurd rfl (hnot pk rb)
    · simp [HandshakeWorker.run, h1]
    · simp [HandshakeWorker.run, h1]
  · intro pk rb s msg2 h1 hid hs h2 hnot
    rcases msg2 with ⟨pk2, rb2⟩ | sig2 | t2
    · simp [HandshakeWorker.run, h1, HandshakeWorker.afterRoundOne, if_neg hid, hs,
        HandshakeWorker.roundTwo, h2]
    · exact absurd rfl (hnot sig2)
    · simp [HandshakeWorker.run, h1, HandshakeWorker.afterRoundOne, if_neg hid, hs,
        HandshakeWorker.roundTwo, h2]

/-- Witness for C5: a `HandshakeReply` first and an unexpected variant second. -/
theorem wrong_message_variant_fails_witness :
    ((workerA.run envWrongFirst).1
        = Except.error (.HandshakeError .HandshakeWrongMessageError)
      ∧ (∀ h k, Event.SignCall h k ∉ (workerA.run envWrongFirst).2)
      ∧ (∀ h s p, Event.VerifyCall h s p ∉ (workerA.run envWrongFirst).2))
    ∧ (workerA.run envWrongSecond).1
        = Except.error (.HandshakeError .HandshakeWrongMessageError) :=
  ⟨(wrong_message_variant_fails workerA envWrongFirst).1 (Message.HandshakeReply ⟨5⟩) rfl
      (fun _ _ h => Message.noConfusion h),
   (wrong_message_variant_fails workerA envWrongSecond).2 pkB bytesB
      ⟨(sumHash bytesB).val + 1000 * 3⟩ (Message.OtherVariant 3) rfl (by decide) rfl rfl
      (fun _ h => Message.noConfusion h)⟩

/-- Environment whose round-1 exchange times out. -/
def envTimeoutFirst : Env := { envGood with round1 := RoundOutcome.Timeout }

/-- Environment whose round-2 exchange times out. -/
def envTimeoutSecond : Env := { envGood with round2 := RoundOutcome.Timeout }

/-- Environment whose round-1 receive finds the stream ended. -/
def envStreamEndFirst : Env := { envGood with round1 := RoundOutcome.StreamEnd }

/-- Environment whose round-2 receive finds the stream ended. -/
def envStreamEndSecond : Env := { envGood with round2 := RoundOutcome.StreamEnd }

/-- Environment whose round-1 send/receive pair fails with a low-level error. -/
def envJoinErrFirst : Env :=
  { envGood with round1 := RoundOutcome.JoinError (.LowLevelError 42) }

/-- Environment whose round-2 send/receive pair fails with a low-level error. -/
def envJoinErrSecond : Env :=
  { envGood with round2 := RoundOutcome.JoinError (.LowLevelError 43) }

/-- C6: every deadline handed to `timeout` during a run is the single
configured `timeout_duration` (the same per-round budget in both rounds), and
a `Timeout` outcome of either round's joined send+receive makes the run
return `HandshakeTimeoutError`. -/
theorem per_round_timeout_budget
    (w : HandshakeWorker R W) (env : Env) :
    (∀ d, Event.TimeoutSet d ∈ (w.run env).2 → d = w.timeout_duration)
    ∧ (env.round1 = RoundOutcome.Timeout →
      (w.run env).1 = Except.error (.HandshakeError .HandshakeTimeoutError))
    ∧ (∀ pk rb s,
      env.round1 = RoundOutcome.Received (Message.HandshakeInitiation pk rb) →
      (⟨pk⟩ : NodeId) ≠ w.self_node_id →
      env.sign (env.hash rb) w.private_key = Except.ok s →
      env.round2 = RoundOutcome.Timeout →
      (w.run env).1 = Except.error (.HandshakeError .HandshakeTimeoutError)) := by
  refine ⟨?_, ?_, ?_⟩
  · intro d hd
    rcases run_trace_events w env _ hd with hc | hc | ⟨pk', rb', _, _, hc⟩
    · exact absurd hc (by simp)
    · simpa using hc
    · rcases hc with hc | ⟨s, _, hc⟩ | ⟨sg, _, hc⟩ <;> exact absurd hc (by simp)
  · intro h1
    simp [HandshakeWorker.run, h1]
  · intro pk rb s h1 hid hs h2
    simp [HandshakeWorker.run, h1, HandshakeWorker.afterRoundOne, if_neg hid, hs,
      HandshakeWorker.roundTwo, h2]

/-- Witness for C6: the deadline recorded in a concrete run, a round-1
timeout and a round-2 timeout. -/
theorem per_round_timeout_budget_witness :
    5000 = workerA.timeout_duration
    ∧ (workerA.run envTimeoutFirst).1
        = Except.error (.HandshakeError .HandshakeTimeoutError)
    ∧ (workerA.run envTimeoutSecond).1
        = Except.error (.HandshakeError .HandshakeTimeoutError) :=
  ⟨(per_round_timeout_budget workerA envGood).1 5000 (by decide),
   (per_round_timeout_budget workerA envTimeoutFirst).2.1 rfl,
   (per_round_timeout_budget workerA envTimeoutSecond).2.2 pkB bytesB
      ⟨(sumHash bytesB).val + 1000 * 3⟩ rfl (by decide) rfl rfl⟩

/-- C7: in either round, an end-of-stream receive yields
`HandshakeInterruptionError`, and a transport/encoding error from the joined
send+receive is returned to the caller unchanged. -/
theorem interruption_and_lower_errors_propagate
    (w : HandshakeWorker R W) (env : Env) :
    (env.round1 = RoundOutcome.StreamEnd →
      (w.run env).1 = Except.error (.HandshakeError .HandshakeInterruptionError))
    ∧ (∀ e, env.round1 = RoundOutcome.JoinError e → (w.run env).1 = Except.error e)
    ∧ (∀ pk rb s,
      env.round1 = RoundOutcome.Received (Message.HandshakeInitiation pk rb) →
      (⟨pk⟩ : NodeId) ≠ w.self_node_id →
      env.sign (env.hash rb) w.private_key = Except.ok s →
      ((env.round2 = RoundOutcome.StreamEnd →
        (w.run env).1 = Except.error (.HandshakeError .HandshakeInterruptionError))
       ∧ (∀ e, env.round2 = RoundOutcome.JoinError e →
        (w.run env).1 = Except.error e))) := by
  refine ⟨?_, ?_, ?_⟩
  · intro h1
    simp [HandshakeWorker.run, h1]
  · intro e h1
    simp [HandshakeWorker.run, h1]
  · intro pk rb s h1 hid hs
    constructor
    · intro h2
      simp [HandshakeWorker.run, h1, HandshakeWorker.afterRoundOne, if_neg hid, hs,
        HandshakeWorker.roundTwo, h2]
    · intro e h2
      simp [HandshakeWorker.run, h1, HandshakeWorker.afterRoundOne, if_neg hid, hs,
        HandshakeWorker.roundTwo, h2]

/-- Witness for C7: interruption and low-level errors in each round. -/
theorem interruption_and_lower_errors_propagate_witness :
    (workerA.run envStreamEndFirst).1
        = Except.error (.HandshakeError .HandshakeInterruptionError)
    ∧ (workerA.run envJoinErrFirst).1 = Except.error (.LowLevelError 42)
    ∧ (workerA.run envStreamEndSecond).1
        = Except.error (.HandshakeError .HandshakeInterruptionError)
    ∧ (workerA.run envJoinErrSecond).1 = Except.error (.LowLevelError 43) :=
  ⟨(interruption_and_lower_errors_propagate workerA envStreamEndFirst).1 rfl,
   (interruption_and_lower_errors_propagate workerA envJoinErrFirst).2.1
      (.LowLevelError 42) rfl,
   ((interruption_and_lower_errors_propagate workerA envStreamEndSecond).2.2 pkB bytesB
      ⟨(sumHash bytesB).val + 1000 * 3⟩ rfl (by decide) rfl).1 rfl,
   ((interruption_and_lower_errors_propagate workerA envJoinErrSecond).2.2 pkB bytesB
      ⟨(sumHash bytesB).val + 1000 * 3⟩ rfl (by decide) rfl).2
      (.LowLevelError 43) rfl⟩

/-- C8: with the 32 bytes the RNG produced, every run's first action is the
`HandshakeInitiation` send carrying exactly this node's public key and
exactly those bytes; no other initiation is ever sent, and the bytes sent
have length 32. -/
theorem run_sends_fresh_initiation_first
    (w : HandshakeWorker R W) (env : Env)
    (hlen : env.self_random_bytes.length = 32) :
    ((w.run env).2).head? =
      some (Event.SendInit
        (Message.HandshakeInitiation w.self_node_id.pk env.self_random_bytes))
    ∧ (∀ m, Event.SendInit m ∈ (w.run env).2 →
        m = Message.HandshakeInitiation w.self_node_id.pk env.self_random_bytes)
    ∧ (∀ pk bs, Event.SendInit (Message.HandshakeInitiation pk bs) ∈ (w.run env).2 →
        pk = w.self_node_id.pk ∧ bs = env.self_random_bytes ∧ bs.length = 32) := by
  have huniq : ∀ m, Event.SendInit m ∈ (w.run env).2 →
      m = Message.HandshakeInitiation w.self_node_id.pk env.self_random_bytes := by
    intro m hm
    rcases run_trace_events w env _ hm with hc | hc | ⟨pk', rb', _, _, hc⟩
    · simpa using hc
    · exact absurd hc (by simp)
    · rcases hc with hc | ⟨s, _, hc⟩ | ⟨sg, _, hc⟩ <;> exact absurd hc (by simp)
  refine ⟨run_trace_head w env, huniq, ?_⟩
  intro pk bs hm
  have hm' := huniq _ hm
  injection hm' with hpk hbs
  exact ⟨hpk, hbs, by rw [hbs]; exact hlen⟩

/-- Witness for C8 at the concrete success environment. -/
theorem run_sends_fresh_initiation_first_witness :
    ((workerA.run envGood).2).head? =
      some (Event.SendInit
        (Message.HandshakeInitiation workerA.self_node_id.pk envGood.self_random_bytes))
    ∧ (∀ m, Event.SendInit m ∈ (workerA.run envGood).2 →
        m = Message.HandshakeInitiation workerA.self_node_id.pk envGood.self_random_bytes)
    ∧ (∀ pk bs, Event.SendInit (Message.HandshakeInitiation pk bs) ∈ (workerA.run envGood).2 →
        pk = workerA.self_node_id.pk ∧ bs = envGood.self_random_bytes ∧ bs.length = 32) :=
  run_sends_fresh_initiation_first workerA envGood (by decide)

/-- C9 (implicit): a run that returns `Ok((peer_id, _, _))` never reports a
peer identity equal to the worker's own. -/
theorem success_implies_peer_id_differs
    (w : HandshakeWorker R W) (env : Env) (nid : NodeId)
    (rd : ReadBinder R) (wr : WriteBinder W)
    (hok : (w.run env).1 = Except.ok (nid, rd, wr)) :
    nid ≠ w.self_node_id := by
  obtain ⟨_, _, pk, rb, sig, _, hnid, hne, _, _⟩ :=
    run_ok_characterization w env nid rd wr hok
  rw [hnid]
  exact hne

/-- Witness for C9 at the concrete success environment. -/
theorem success_implies_peer_id_differs_witness :
    (⟨pkB⟩ : NodeId) ≠ workerA.self_node_id :=
  success_implies_peer_id_differs workerA envGood ⟨pkB⟩ ⟨10⟩ ⟨20⟩ rfl

/-- C10 (implicit): the error values for a timeout, an end-of-stream and a
wrong message variant are identical whether the failure happens in round 1
(environment `env1`) or in round 2 (environment `env2`, which reaches round
2), so the error kind alone cannot tell the rounds apart. -/
theorem round_failures_yield_identical_errors
    (w : HandshakeWorker R W) (env1 env2 : Env) (pk : PublicKey) (rb : List Nat)
    (s : Signature)
    (h1 : env2.round1 = RoundOutcome.Received (Message.HandshakeInitiation pk rb))
    (hid : (⟨pk⟩ : NodeId) ≠ w.self_node_id)
    (hs : env2.sign (env2.hash rb) w.private_key = Except.ok s) :
    (env1.round1 = RoundOutcome.Timeout → env2.round2 = RoundOutcome.Timeout →
      (w.run env1).1 = (w.run env2).1)
    ∧ (env1.round1 = RoundOutcome.StreamEnd → env2.round2 = RoundOutcome.StreamEnd →
      (w.run env1).1 = (w.run env2).1)
    ∧ (∀ msg1 msg2, env1.round1 = RoundOutcome.Received msg1 →
        (∀ p r, msg1 ≠ Message.HandshakeInitiation p r) →
        env2.round2 = RoundOutcome.Received msg2 →
        (∀ sg, msg2 ≠ Message.HandshakeReply sg) →
        (w.run env1).1 = (w.run env2).1) := by
  refine ⟨?_, ?_, ?_⟩
  · intro ha hb
    simp [HandshakeWorker.run, ha, h1, HandshakeWorker.afterRoundOne, if_neg hid, hs,
      HandshakeWorker.roundTwo, hb]
  · intro ha hb
    simp [HandshakeWorker.run, ha, h1, HandshakeWorker.afterRoundOne, if_neg hid, hs,
      HandshakeWorker.roundTwo, hb]
  · intro msg1 msg2 ha hnot1 hb hnot2
    rcases msg1 with ⟨p1, r1⟩ | s1 | t1
    · exact absurd rfl (hnot1 p1 r1)
    · rcases msg2 with ⟨p2, r2⟩ | s2 | t2
      · simp [HandshakeWorker.run, ha, h1, HandshakeWorker.afterRoundOne, if_neg hid, hs,
          HandshakeWorker.roundTwo, hb]
      · exact absurd rfl (hnot2 s2)
      · simp [HandshakeWorker.run, ha, h1, HandshakeWorker.afterRoundOne, if_neg hid, hs,
          HandshakeWorker.roundTwo, hb]
    · rcases msg2 with ⟨p2, r2⟩ | s2 | t2
      · simp [HandshakeWorker.run, ha, h1, HandshakeWorker.afterRoundOne, if_neg hid, hs,
          HandshakeWorker.roundTwo, hb]
      · exact absurd rfl (hnot2 s2)
      · simp [HandshakeWorker.run, ha, h1, HandshakeWorker.afterRoundOne, if_neg hid, hs,
          HandshakeWorker.roundTwo, hb]

/-- Witness for C10: the three matched round-1/round-2 failure pairs on
concrete environments. -/
theorem round_failures_yield_identical_errors_witness :
    (workerA.run envTimeoutFirst).1 = (workerA.run envTimeoutSecond).1
    ∧ (workerA.run envStreamEndFirst).1 = (workerA.run envStreamEndSecond).1
    ∧ (workerA.run envWrongFirst).1 = (workerA.run envWrongSecond).1 :=
  ⟨(round_failures_yield_identical_errors workerA envTimeoutFirst envTimeoutSecond
      pkB bytesB ⟨(sumHash bytesB).val + 1000 * 3⟩ rfl (by decide) rfl).1 rfl rfl,
   (round_failures_yield_identical_errors workerA envStreamEndFirst envStreamEndSecond
      pkB bytesB ⟨(sumHash bytesB).val + 1000 * 3⟩ rfl (by decide) rfl).2.1 rfl rfl,
   (round_failures_yield_identical_errors workerA envWrongFirst envWrongSecond
      pkB bytesB ⟨(sumHash bytesB).val + 1000 * 3⟩ rfl (by decide) rfl).2.2
      (Message.HandshakeReply ⟨5⟩) (Message.OtherVariant 3) rfl
      (fun _ _ h => Message.noConfusion h) rfl
      (fun _ h => Message.noConfusion h)⟩
